import Mathlib

/-!
Verification of the VBM Interactive Paper Visualizer's client-side core
(`assets/app.js`): the keyword query interpreter, the analysis matcher,
the result formatter, the baseline lookup and the coefficient plot.

The JavaScript source is shallowly embedded: every regex pattern used by
`findBestMatchKeyword` is translated into a decidable Boolean test on the
lowercased character list of the query, and the stateful pattern loops are
translated into folds that mirror the statement order of the source.
-/

namespace VBM

/-! ### Character classes (JS regex semantics) -/

/-- JS `\w` word character class: `[A-Za-z0-9_]`. -/
def isWordChar (c : Char) : Bool :=
  ('a' ≤ c && c ≤ 'z') || ('A' ≤ c && c ≤ 'Z') || ('0' ≤ c && c ≤ '9') || c = '_'

/-- JS `\s` whitespace class (WhiteSpace ∪ LineTerminator code points). -/
def isJsSpace (c : Char) : Bool :=
  c = ' ' || c = '\t' || c = '\n' || c = '\x0b' || c = '\x0c' || c = '\r' ||
  c = '\u00a0' || c = '\u1680' || ('\u2000' ≤ c && c ≤ '\u200a') ||
  c = '\u2028' || c = '\u2029' || c = '\u202f' || c = '\u205f' ||
  c = '\u3000' || c = '\ufeff'

/-- JS `.` (dot, no `s` flag): any character except a line terminator. -/
def isDotChar (c : Char) : Bool :=
  !(c = '\n' || c = '\r' || c = '\u2028' || c = '\u2029')

/-! ### Generic matching combinators for `RegExp.prototype.test` -/

/-- `RegExp.test` succeeds iff a match starts at some position: try the
position-local predicate `p` at every suffix (including the empty one). -/
def anyPos (p : List Char → Bool) : List Char → Bool
  | [] => p []
  | c :: t => p (c :: t) || anyPos p t

/-- Like `anyPos` but tracking whether the previous character is a word
character, for patterns anchored by a leading `\b`. -/
def anyPosPrev (p : List Char → Bool) (prevWord : Bool) : List Char → Bool
  | [] => !prevWord && p []
  | c :: t => (!prevWord && p (c :: t)) || anyPosPrev p (isWordChar c) t

/-- `\b` placed after an alternative that ends in a word character:
the next character must not be a word character (or the input ends). -/
def boundaryAfter : List Char → Bool
  | [] => true
  | c :: _ => !isWordChar c

/-- `\s*` before a literal that starts with a non-space character consumes
exactly the maximal run of whitespace. -/
def skipWs (l : List Char) : List Char := l.dropWhile isJsSpace

/-- `lit` matches literally at the head of `l`. -/
def litAt (lit : String) (l : List Char) : Bool := lit.data.isPrefixOf l

/-- The pattern `lit` matches somewhere in `l` (plain substring test). -/
def containsLit (lit : String) (l : List Char) : Bool := anyPos (litAt lit) l

/-- `(a₁|a₂|…)\b` at the head of `l`, each alternative ending in a word
character. -/
def altBound (alts : List String) (l : List Char) : Bool :=
  alts.any fun a => litAt a l && boundaryAfter (l.drop a.data.length)

/-- `a.?b` somewhere in `l`: literal `a`, an optional arbitrary (non
line-terminator) character, then literal `b`. -/
def seqDotOpt (a b : String) : List Char → Bool :=
  anyPos fun s => litAt a s &&
    (litAt b (s.drop a.data.length) ||
      (match s.drop a.data.length with
        | c :: t => isDotChar c && litAt b t
        | [] => false))

/-- `.*b` at the head: literal `b` after any run of non line-terminator
characters. -/
def dotStarThen (b : String) : List Char → Bool
  | [] => litAt b []
  | c :: t => litAt b (c :: t) || (isDotChar c && dotStarThen b t)

/-- `a.*b` somewhere in `l`. -/
def seqDotStar (a b : String) : List Char → Bool :=
  anyPos fun s => litAt a s && dotStarThen b (s.drop a.data.length)

/-! ### The concrete regex tests of `findBestMatchKeyword` -/

/-- `/exclud(e|ing)\s*(name|ab)\b/i` on the lowercased query. -/
def exclWordTest (name ab : String) (l : List Char) : Bool :=
  anyPos (fun s =>
    (litAt "exclude" s && altBound [name, ab] (skipWs (s.drop 7))) ||
    (litAt "excluding" s && altBound [name, ab] (skipWs (s.drop 9)))) l

/-- `/excl\.?\s*(ab|name)\b/i` on the lowercased query. -/
def exclDotTest (ab name : String) (l : List Char) : Bool :=
  anyPos (fun s => litAt "excl" s &&
    (altBound [ab, name]
      (skipWs (match s.drop 4 with
        | '.' :: t => t
        | r => r)))) l

/-- `/exclud(e|ing)\s*(california|ca)\b/i`. -/
def testExclCA : List Char → Bool := exclWordTest "california" "ca"

/-- `/exclud(e|ing)\s*(utah|ut)\b/i`. -/
def testExclUT : List Char → Bool := exclWordTest "utah" "ut"

/-- `/exclud(e|ing)\s*(washington|wa)\b/i`. -/
def testExclWA : List Char → Bool := exclWordTest "washington" "wa"

/-- `/excl\.?\s*(ca|california)\b/i`. -/
def testExclDotCA : List Char → Bool := exclDotTest "ca" "california"

/-- `/excl\.?\s*(ut|utah)\b/i`. -/
def testExclDotUT : List Char → Bool := exclDotTest "ut" "utah"

/-- `/excl\.?\s*(wa|washington)\b/i`. -/
def testExclDotWA : List Char → Bool := exclDotTest "wa" "washington"

/-- `/original|1996.?2018/i`. -/
def testTimeOrig (l : List Char) : Bool :=
  containsLit "original" l || seqDotOpt "1996" "2018" l

/-- `/post.?2018|after 2018|2018.?2024/i`. -/
def testTimePost (l : List Char) : Bool :=
  seqDotOpt "post" "2018" l || containsLit "after 2018" l ||
  seqDotOpt "2018" "2024" l

/-- `/without 2024|exclud.*2024|1996.?2022|excl.*2024/i`. -/
def testTimeNo2024 (l : List Char) : Bool :=
  containsLit "without 2024" l || seqDotStar "exclud" "2024" l ||
  seqDotOpt "1996" "2022" l || seqDotStar "excl" "2024" l

/-- `/turn(out)?/i`: the optional group never affects `test`, so this is a
substring test for `turn`. -/
def testTurn : List Char → Bool := containsLit "turn"

/-- `/pres(ident(ial)?)?/i`: substring test for `pres`. -/
def testPres : List Char → Bool := containsLit "pres"

/-- `/gov(ernor)?/i`: substring test for `gov`. -/
def testGov : List Char → Bool := containsLit "gov"

/-- `/sen(at(e|or))?/i`: substring test for `sen`. -/
def testSen : List Char → Bool := containsLit "sen"

/-- `/vote\s*share|partisan|democrat/i`. -/
def testDemShare (l : List Char) : Bool :=
  anyPos (fun s => litAt "vote" s && litAt "share" (skipWs (s.drop 4))) l ||
  containsLit "partisan" l || containsLit "democrat" l

/-- `/linear/i`. -/
def testLinear : List Char → Bool := containsLit "linear"

/-- `/quadratic|quad\b/i`. -/
def testQuad (l : List Char) : Bool :=
  containsLit "quadratic" l ||
  anyPos (fun s => litAt "quad" s && boundaryAfter (s.drop 4)) l

/-- `/basic|simple/i`. -/
def testBasic (l : List Char) : Bool :=
  containsLit "basic" l || containsLit "simple" l

/-- `/weight(ed)?|population/i`. -/
def testWeight (l : List Char) : Bool :=
  containsLit "weight" l || containsLit "population" l

/-- `/\b(california|ca)\b/i`. -/
def testStateCA : List Char → Bool :=
  anyPosPrev (altBound ["california", "ca"]) false

/-- `/\b(utah|ut)\b/i`. -/
def testStateUT : List Char → Bool :=
  anyPosPrev (altBound ["utah", "ut"]) false

/-- `/\b(washington|wa)\b/i`. -/
def testStateWA : List Char → Bool :=
  anyPosPrev (altBound ["washington", "wa"]) false

/-! ### Data model

One `Analysis` per entry of the pre-computed corpus `results.json`, with
the fields read by `app.js`.  Absent JSON fields are `Option.none`;
statistics are exact rationals. -/

structure Analysis where
  outcome : String
  specification : String
  state_filter : Option String
  time_window : Option (Int × Int)
  weighted : Bool
  cluster : String
  coefficient : ℚ
  std_error : ℚ
  p_value : ℚ
  ci_lower : Option ℚ
  ci_upper : Option ℚ
  n_obs : Nat
  n_clusters : Nat
  success : Bool
  description : Option String
  filter_desc : Option String
  deriving DecidableEq, Repr

/-- One entry of the `patterns` array in `findBestMatchKeyword`: a regex
test plus the optional fields it sets.  JS property absence is `none`. -/
structure KeywordPattern where
  test : List Char → Bool
  filter : Option String := none
  time : Option (Int × Int) := none
  outcome : Option String := none
  weighted : Bool := false
  spec : Option String := none

/-- The mutable criteria variables of `findBestMatchKeyword`
(`targetFilter`, `targetTime`, `targetOutcome`, `targetWeighted`,
`targetSpec`). -/
structure Intent where
  targetFilter : Option String
  targetTime : Option (Int × Int)
  targetOutcome : Option String
  targetWeighted : Bool
  targetSpec : String
  deriving DecidableEq, Repr

/-- Initial values of the criteria variables
(`let targetFilter = null; … let targetSpec = 'basic';`). -/
def initIntent : Intent :=
  { targetFilter := none, targetTime := none, targetOutcome := none,
    targetWeighted := false, targetSpec := "basic" }

/-- The ordered `patterns` array of `findBestMatchKeyword`, in source
order: exclusions, time periods, outcomes, specifications, weighting. -/
def patterns : List KeywordPattern :=
  [ { test := testExclCA, filter := some "exclude_CA" },
    { test := testExclUT, filter := some "exclude_UT" },
    { test := testExclWA, filter := some "exclude_WA" },
    { test := testExclDotCA, filter := some "exclude_CA" },
    { test := testExclDotUT, filter := some "exclude_UT" },
    { test := testExclDotWA, filter := some "exclude_WA" },
    { test := testTimeOrig, time := some (1996, 2018) },
    { test := testTimePost, time := some (2018, 2024) },
    { test := testTimeNo2024, time := some (1996, 2022) },
    { test := testTurn, outcome := some "turnout" },
    { test := testPres, outcome := some "dem_share_pres" },
    { test := testGov, outcome := some "dem_share_gov" },
    { test := testSen, outcome := some "dem_share_sen" },
    { test := testDemShare, outcome := some "dem_share" },
    { test := testLinear, spec := some "linear" },
    { test := testQuad, spec := some "quadratic" },
    { test := testBasic, spec := some "basic" },
    { test := testWeight, weighted := true } ]

/-- The `statePatterns` array: state inclusion tests and their filters. -/
def statePatterns : List ((List Char → Bool) × String) :=
  [ (testStateCA, "CA"), (testStateUT, "UT"), (testStateWA, "WA") ]

/-- Body of the first-pass loop.  Each matched pattern assigns the fields
it carries: filter, time, weighted and spec are overwritten
unconditionally, while outcome is kept if already set
(`if (pattern.outcome && !targetOutcome)`). -/
def applyPattern (q : List Char) (st : Intent) (p : KeywordPattern) : Intent :=
  { targetFilter :=
      if p.test q then
        (match p.filter with
          | some f => some f
          | none => st.targetFilter)
      else st.targetFilter,
    targetTime :=
      if p.test q then
        (match p.time with
          | some t => some t
          | none => st.targetTime)
      else st.targetTime,
    targetOutcome :=
      if p.test q then
        (match p.outcome, st.targetOutcome with
          | some o, none => some o
          | _, _ => st.targetOutcome)
      else st.targetOutcome,
    targetWeighted :=
      if p.test q && p.weighted then true else st.targetWeighted,
    targetSpec :=
      if p.test q then
        (match p.spec with
          | some sp => sp
          | none => st.targetSpec)
      else st.targetSpec }

/-- First pass of `findBestMatchKeyword`: fold the ordered pattern list
over the initial criteria. -/
def firstPass (q : List Char) : Intent :=
  patterns.foldl (applyPattern q) initIntent

/-- `targetFilter && targetFilter.startsWith('exclude_')` as a predicate
on the optional filter (`startsWith` as a character-list prefix test). -/
def isExcludeFilter : Option String → Bool
  | none => false
  | some s => "exclude_".data.isPrefixOf s.data

/-- Second-pass loop over `statePatterns`: stops at the first matching
state mention (`break`), assigning the inclusion filter only when no
exclusion filter is present. -/
def stateLoop (q : List Char) (tf : Option String) :
    List ((List Char → Bool) × String) → Option String
  | [] => tf
  | p :: rest =>
    if p.1 q then (if isExcludeFilter tf then tf else some p.2)
    else stateLoop q tf rest

/-- The full query interpretation: first pass over `patterns`, then the
state-inclusion pass guarded by
`if (!targetFilter || !targetFilter.startsWith('exclude_'))`. -/
def extractIntent (q : List Char) : Intent :=
  let it := firstPass q
  if isExcludeFilter it.targetFilter then it
  else { it with targetFilter := stateLoop q it.targetFilter statePatterns }

/-- The `relevantOutcomes` array. -/
def relevantOutcomes : List String :=
  ["dem_share", "turnout", "dem_share_pres", "dem_share_gov", "dem_share_sen"]

/-- The additive per-record score of the matcher loop: +10/+2 state
filter, +10/+2 time window, +10/+1 outcome, +5/+1 weighting, +3
specification. -/
def scoreAnalysis (it : Intent) (a : Analysis) : Nat :=
  (if it.targetFilter.isSome && a.state_filter == it.targetFilter then 10
   else if it.targetFilter == none && a.state_filter == none then 2 else 0) +
  (if it.targetTime.isSome && a.time_window == it.targetTime then 10
   else if it.targetTime == none && a.time_window == none then 2 else 0) +
  (if it.targetOutcome.isSome && some a.outcome == it.targetOutcome then 10
   else if it.targetOutcome == none && a.outcome == "dem_share" then 1 else 0) +
  (if it.targetWeighted && a.weighted then 5
   else if !it.targetWeighted && !a.weighted then 1 else 0) +
  (if a.specification == it.targetSpec then 3 else 0)

/-- One step of the scoring loop: records with an irrelevant outcome are
skipped (`continue`), and the best is updated on strict improvement
(`if (score > bestScore)`). -/
def matchStep (it : Intent) (acc : Option Analysis × Nat) (a : Analysis) :
    Option Analysis × Nat :=
  if relevantOutcomes.contains a.outcome then
    (if scoreAnalysis it a > acc.2 then (some a, scoreAnalysis it a) else acc)
  else acc

/-- The `bestMatch`/`bestScore` state of `findBestMatchKeyword` after the
scoring loop: lowercase the query, interpret it, and score every analysis
starting from `bestMatch = null, bestScore = 0`. -/
def findBestMatchRaw (query : String) (analyses : List Analysis) :
    Option Analysis × Nat :=
  analyses.foldl (matchStep (extractIntent (query.data.map Char.toLower)))
    (none, 0)

/-- `findBestMatchKeyword(query, section)`: the best match together with
the similarity `bestScore / maxPossibleScore`, `maxPossibleScore = 30`. -/
def findBestMatchKeyword (query : String) (analyses : List Analysis) :
    Option Analysis × ℚ :=
  ((findBestMatchRaw query analyses).1,
    ((findBestMatchRaw query analyses).2 : ℚ) / 30)

/-- `SIMILARITY_THRESHOLD = 0.5`. -/
def SIMILARITY_THRESHOLD : ℚ := 1 / 2

/-- The two narration paths of `handleQuery`, carrying the matched record
and similarity. -/
inductive QueryBranch where
  | noGoodMatch (analysis : Option Analysis) (similarity : ℚ)
  | confidentMatch (analysis : Option Analysis) (similarity : ℚ)
  deriving DecidableEq, Repr

/-- The threshold branch of `handleQuery`:
`if (match.similarity < SIMILARITY_THRESHOLD)` takes the fallback
narration path, otherwise the confident-match path. -/
def handleQueryBranch (query : String) (analyses : List Analysis) :
    QueryBranch :=
  let m := findBestMatchKeyword query analyses
  if m.2 < SIMILARITY_THRESHOLD then .noGoodMatch m.1 m.2
  else .confidentMatch m.1 m.2

/-! ### Result presenter -/

/-- JS `x || d` for an optional number: `0` is falsy. -/
def jsNumOr (x : Option ℚ) (d : ℚ) : ℚ :=
  match x with
  | none => d
  | some v => if v = 0 then d else v

/-- JS `s || d` for an optional string: the empty string is falsy. -/
def jsStrOrD (x : Option String) (d : String) : String :=
  match x with
  | none => d
  | some s => if s = "" then d else s

/-- Zero-pad a digit string on the left to width `w`. -/
def padZeros (w : Nat) (s : String) : String :=
  if s.length < w then String.mk (List.replicate (w - s.length) '0') ++ s
  else s

/-- `Number.prototype.toFixed` on a non-negative exact rational: the
integer closest to `x·10^digits`, ties to the larger. -/
def toFixedNonneg (digits : Nat) (x : ℚ) : String :=
  let n : Int := Int.floor (x * (10 : ℚ) ^ digits + 1 / 2)
  let nn : Nat := n.toNat
  let ip := nn / 10 ^ digits
  let fp := nn % 10 ^ digits
  if digits = 0 then toString ip
  else toString ip ++ "." ++ padZeros digits (toString fp)

/-- `Number.prototype.toFixed` on an exact rational (negative numbers
format their absolute value behind a minus sign). -/
def toFixed (digits : Nat) (x : ℚ) : String :=
  if x < 0 then "-" ++ toFixedNonneg digits (-x) else toFixedNonneg digits x

/-- Result of `formatCell`: the em-dash missing glyph, or a cell whose
first line is `coefficient.toFixed(3)` plus the significance stars with
CSS class `sigClass`, and whose second line is the standard error
`(std_error.toFixed(3))`. -/
inductive Cell where
  | missing
  | cell (coefLine : String) (stars : String) (sigClass : String)
      (seLine : String)
  deriving DecidableEq, Repr

/-- `formatCell(analysis)`: the missing glyph for an absent or
unsuccessful record, else the formatted coefficient/standard-error cell
with stars `***` for p &lt; 0.01, `**` for p &lt; 0.05, `*` for p &lt; 0.1. -/
def formatCell (analysis : Option Analysis) : Cell :=
  match analysis with
  | none => .missing
  | some a =>
    if !a.success then .missing
    else
      let stars :=
        if a.p_value < 1 / 100 then "***"
        else if a.p_value < 1 / 20 then "**"
        else if a.p_value < 1 / 10 then "*"
        else ""
      let sigClass := if a.p_value < 1 / 20 then "significant" else ""
      .cell (toFixed 3 a.coefficient ++ stars) stars sigClass
        ("(" ++ toFixed 3 a.std_error ++ ")")

/-- `getSignificanceStars(analysis)`: empty for a null record, else the
same three thresholds. -/
def getSignificanceStars (analysis : Option Analysis) : String :=
  match analysis with
  | none => ""
  | some a =>
    if a.p_value < 1 / 100 then "***"
    else if a.p_value < 1 / 20 then "**"
    else if a.p_value < 1 / 10 then "*"
    else ""

/-- `findAnalysis(outcome, specification, stateFilter, timeWindow)`:
first corpus record with the given tuple, unweighted and
county-clustered.  `JSON.stringify` equality of time windows is
structural equality of the optional pairs. -/
def findAnalysis (analyses : List Analysis) (outcome specification : String)
    (stateFilter : Option String) (timeWindow : Option (Int × Int)) :
    Option Analysis :=
  analyses.find? fun a =>
    a.outcome == outcome && a.specification == specification &&
    a.state_filter == stateFilter && a.time_window == timeWindow &&
    !a.weighted && a.cluster == "county"

/-- `getBaseline(outcome)`: the fixed quadratic-trend, full-sample,
full-window record — pooled `dem_share` for every non-turnout outcome,
`turnout` for turnout. -/
def getBaseline (analyses : List Analysis) (outcome : String) :
    Option Analysis :=
  let baselineOutcome := if outcome == "turnout" then "turnout" else "dem_share"
  findAnalysis analyses baselineOutcome "quadratic" none none

/-- `a.ci_lower || (a.coefficient - 1.96 * a.std_error)`. -/
def ciLowerOf (a : Analysis) : ℚ :=
  jsNumOr a.ci_lower (a.coefficient - 49 / 25 * a.std_error)

/-- `a.ci_upper || (a.coefficient + 1.96 * a.std_error)`. -/
def ciUpperOf (a : Analysis) : ℚ :=
  jsNumOr a.ci_upper (a.coefficient + 49 / 25 * a.std_error)

/-- One drawn row of the forest plot: its label, the scaled x
coordinates of the interval ends and the point, and the numeric label
`coefficient.toFixed(4)` plus stars. -/
structure PlotRow where
  label : String
  xLower : ℚ
  xPoint : ℚ
  xUpper : ℚ
  valueLabel : String
  deriving DecidableEq, Repr

/-- The output of `renderCoefPlot`: the geometry it computes and the rows
it draws. -/
structure CoefPlot where
  showCurrent : Bool
  minVal : ℚ
  maxVal : ℚ
  height : ℚ
  outcomeLabel : String
  rows : List PlotRow
  deriving DecidableEq, Repr

/-- `renderCoefPlot(baseline, current, outcomeLabel, filterDesc)`: the
x-range spans the union of the present records' confidence intervals and
zero, the baseline row is drawn when the baseline record is present, and
the current row when `current` is non-null. -/
def renderCoefPlot (baseline current : Option Analysis)
    (outcomeLabel : String) (filterDesc : Option String) : CoefPlot :=
  let showCurrent := current.isSome
  let allCoefs := [baseline, current].filterMap id
  let allLower := allCoefs.map ciLowerOf
  let allUpper := allCoefs.map ciUpperOf
  let minVal := allLower.foldl min 0 - 1 / 100
  let maxVal := allUpper.foldl max 0 + 1 / 100
  let marginLeft : ℚ := 160
  let plotWidth : ℚ := 400 - 160 - 80
  let scale : ℚ → ℚ :=
    fun v => marginLeft + (v - minVal) / (maxVal - minVal) * plotWidth
  let baselineRows :=
    match baseline with
    | some b =>
      [{ label := "Baseline (quad. trends)", xLower := scale (ciLowerOf b),
         xPoint := scale b.coefficient, xUpper := scale (ciUpperOf b),
         valueLabel := toFixed 4 b.coefficient ++ getSignificanceStars (some b) }]
    | none => []
  let currentRows :=
    if showCurrent then
      match current with
      | some c =>
        [{ label := jsStrOrD filterDesc "Current specification",
           xLower := scale (ciLowerOf c), xPoint := scale c.coefficient,
           xUpper := scale (ciUpperOf c),
           valueLabel := toFixed 4 c.coefficient ++
             getSignificanceStars (some c) }]
      | none => []
    else []
  { showCurrent := showCurrent, minVal := minVal, maxVal := maxVal,
    height := if showCurrent then 100 else 70, outcomeLabel := outcomeLabel,
    rows := baselineRows ++ currentRows }

/-- `updateCoefPlot(baseline, analysis, outcomeLabel)`: re-render with the
matched analysis as the current row,
`filterDesc = analysis.filter_desc || 'This specification'`. -/
def updateCoefPlot (baseline : Option Analysis) (analysis : Analysis)
    (outcomeLabel : String) : CoefPlot :=
  renderCoefPlot baseline (some analysis) outcomeLabel
    (some (jsStrOrD analysis.filter_desc "This specification"))

/-- The `Best available match:` line of `generateNoMatchResponse`'s system
prompt: `match.analysis?.description || 'None found'`. -/
def noMatchDescription (analysis : Option Analysis) : String :=
  match analysis with
  | none => "None found"
  | some a => jsStrOrD a.description "None found"

/-! ### Concrete corpus records for test scenarios -/

/-- Pooled vote-share record at the default dimensions: basic
specification, full sample, full window, unweighted, county-clustered. -/
def pooledBasicRecord : Analysis :=
  { outcome := "dem_share", specification := "basic", state_filter := none,
    time_window := none, weighted := false, cluster := "county",
    coefficient := 3 / 125, std_error := 1 / 100, p_value := 1 / 250,
    ci_lower := none, ci_upper := none, n_obs := 2970, n_clusters := 160,
    success := true,
    description := some "Democratic Vote Share (1996-2024), Basic specification",
    filter_desc := none }

/-- The record of Scenario A: pooled vote share, basic specification,
excluding California, no time window, unweighted, county-clustered. -/
def excludeCARecord : Analysis :=
  { outcome := "dem_share", specification := "basic",
    state_filter := some "exclude_CA", time_window := none,
    weighted := false, cluster := "county", coefficient := 29 / 1000,
    std_error := 1 / 100, p_value := 1 / 250, ci_lower := none,
    ci_upper := none, n_obs := 2376, n_clusters := 126, success := true,
    description := some "Democratic Vote Share (1996-2024), Basic specification, Excluding California",
    filter_desc := some "Excluding CA" }

/-- A record matching every dimension of the query
`"weighted turnout linear excluding california original"`. -/
def fullMatchRecord : Analysis :=
  { outcome := "turnout", specification := "linear",
    state_filter := some "exclude_CA", time_window := some (1996, 2018),
    weighted := true, cluster := "county", coefficient := 13 / 1000,
    std_error := 1 / 125, p_value := 3 / 25, ci_lower := none,
    ci_upper := none, n_obs := 1980, n_clusters := 126, success := true,
    description := some "Voter Turnout (1996-2018), Linear Trends, Excluding California, weighted",
    filter_desc := some "Excluding CA, weighted" }

/-- The fixed pooled baseline record: quadratic trends, full sample,
full window, unweighted, county-clustered. -/
def baselineQuadRecord : Analysis :=
  { outcome := "dem_share", specification := "quadratic",
    state_filter := none, time_window := none, weighted := false,
    cluster := "county", coefficient := 3 / 125, std_error := 11 / 1000,
    p_value := 1 / 25, ci_lower := none, ci_upper := none, n_obs := 2970,
    n_clusters := 160, success := true,
    description := some "Democratic Vote Share (1996-2024), Quadratic Trends",
    filter_desc := none }

/-! ### First-pass characterizations

The assignment `targetX = pattern.x` inside the loop means the LAST
matching pattern of a dimension wins, except for `targetOutcome`, which
is guarded by `!targetOutcome` and therefore keeps the FIRST match. -/

theorem firstPass_targetFilter (q : List Char) :
    (firstPass q).targetFilter =
      (if testExclDotWA q then some "exclude_WA"
       else if testExclDotUT q then some "exclude_UT"
       else if testExclDotCA q then some "exclude_CA"
       else if testExclWA q then some "exclude_WA"
       else if testExclUT q then some "exclude_UT"
       else if testExclCA q then some "exclude_CA"
       else none) := by
  simp only [firstPass, patterns, List.foldl_cons, List.foldl_nil,
    applyPattern, initIntent, ite_self]

theorem firstPass_targetSpec (q : List Char) :
    (firstPass q).targetSpec =
      (if testBasic q then "basic"
       else if testQuad q then "quadratic"
       else if testLinear q then "linear"
       else "basic") := by
  simp only [firstPass, patterns, List.foldl_cons, List.foldl_nil,
    applyPattern, initIntent, ite_self]

theorem firstPass_targetTime (q : List Char) :
    (firstPass q).targetTime =
      (if testTimeNo2024 q then some (1996, 2022)
       else if testTimePost q then some (2018, 2024)
       else if testTimeOrig q then some (1996, 2018)
       else none) := by
  simp only [firstPass, patterns, List.foldl_cons, List.foldl_nil,
    applyPattern, initIntent, ite_self]

theorem firstPass_targetWeighted (q : List Char) :
    (firstPass q).targetWeighted = testWeight q := by
  cases h : testWeight q <;>
    simp [firstPass, patterns, applyPattern, initIntent, h]

theorem firstPass_targetOutcome (q : List Char) :
    (firstPass q).targetOutcome =
      (if testTurn q then some "turnout"
       else if testPres q then some "dem_share_pres"
       else if testGov q then some "dem_share_gov"
       else if testSen q then some "dem_share_sen"
       else if testDemShare q then some "dem_share"
       else none) := by
  cases h1 : testTurn q <;> cases h2 : testPres q <;> cases h3 : testGov q <;>
    cases h4 : testSen q <;> cases h5 : testDemShare q <;>
    simp only [firstPass, patterns, List.foldl_cons, List.foldl_nil,
      applyPattern, initIntent, ite_self, h1, h2, h3, h4, h5,
      Bool.false_eq_true, if_true, if_false]

/-! ### Claim theorems -/

/-- Claim C1.  The claim fails on the code: the query
`"What about third-party vote share?"` matches the pooled vote-share
outcome pattern (`vote\s*share`), so against a corpus holding the
default pooled record the similarity is 18/30 = 0.6 ≥ 0.5 and
`handleQuery` takes the confident-match path, not the fallback —
contrary to the documented no-match flow for this exact input. -/
theorem c1_third_party_confident_match :
    findBestMatchKeyword "What about third-party vote share?"
        [pooledBasicRecord] = (some pooledBasicRecord, 3 / 5) ∧
    SIMILARITY_THRESHOLD ≤ 3 / 5 ∧
    handleQueryBranch "What about third-party vote share?"
        [pooledBasicRecord] = .confidentMatch (some pooledBasicRecord) (3 / 5) := by
  have hraw : findBestMatchRaw "What about third-party vote share?"
      [pooledBasicRecord] = (some pooledBasicRecord, 18) := rfl
  refine ⟨?_, by norm_num [SIMILARITY_THRESHOLD], ?_⟩
  · rw [findBestMatchKeyword, hraw]
    norm_num
  · rw [handleQueryBranch, findBestMatchKeyword, hraw]
    norm_num [SIMILARITY_THRESHOLD]

/-- Claim C2.  The claim fails on the code: the exclusion regexes accept
only `exclude`, `excluding` and `excl.`, never `excluded`, so the query
`"What if we excluded California?"` is interpreted as the plain `CA`
inclusion filter and the exclude-CA record of the scenario scores only
7/30 &lt; 0.5, sending `handleQuery` down the fallback path — contrary to
the documented flow for this exact input. -/
theorem c2_excluded_california_fallback :
    (extractIntent
        ("What if we excluded California?".data.map Char.toLower)).targetFilter =
      some "CA" ∧
    findBestMatchKeyword "What if we excluded California?"
        [excludeCARecord] = (some excludeCARecord, 7 / 30) ∧
    (7 : ℚ) / 30 < SIMILARITY_THRESHOLD ∧
    handleQueryBranch "What if we excluded California?" [excludeCARecord] =
      .noGoodMatch (some excludeCARecord) (7 / 30) := by
  have hraw : findBestMatchRaw "What if we excluded California?"
      [excludeCARecord] = (some excludeCARecord, 7) := rfl
  refine ⟨rfl, ?_, by norm_num [SIMILARITY_THRESHOLD], ?_⟩
  · rw [findBestMatchKeyword, hraw]
    norm_num
  · rw [handleQueryBranch, findBestMatchKeyword, hraw]
    norm_num [SIMILARITY_THRESHOLD]

/-- Claim C3.  The claim fails on the code: a query aligning all five
dimensions with a record attains the score 10+10+10+5+3 = 38, so the
similarity `bestScore / 30` reaches 38/30 = 19/15 &gt; 1, exceeding the
`[0, 1]` interval promised by the normalization comment. -/
theorem c3_similarity_exceeds_one :
    findBestMatchKeyword "weighted turnout linear excluding california original"
        [fullMatchRecord] = (some fullMatchRecord, 19 / 15) ∧
    (1 : ℚ) < 19 / 15 := by
  have hraw : findBestMatchRaw
      "weighted turnout linear excluding california original"
      [fullMatchRecord] = (some fullMatchRecord, 38) := rfl
  refine ⟨?_, by norm_num⟩
  rw [findBestMatchKeyword, hraw]
  norm_num

/-- Claim C4, counterexample.  A text containing the phrase
`excluding california` can still end with a different exclusion filter:
`"excluding california and excluding utah"` yields `exclude_UT`, because
a later matching exclusion pattern overwrites `targetFilter`. -/
theorem c4_counterexample :
    containsLit "excluding california"
      ("excluding california and excluding utah".data.map Char.toLower) = true ∧
    (extractIntent
        ("excluding california and excluding utah".data.map
          Char.toLower)).targetFilter = some "exclude_UT" ∧
    (some "exclude_UT" : Option String) ≠ some "exclude_CA" :=
  ⟨rfl, rfl, by decide⟩

/-- Claim C4, amended.  When a CA-exclusion pattern matches the
lowercased text, the interpreted state filter is never the plain `CA`
inclusion filter; and when additionally no UT or WA exclusion pattern
matches, the filter is exactly `exclude_CA`. -/
theorem c4_exclusion_dominates (q : List Char)
    (hCA : testExclCA q = true ∨ testExclDotCA q = true) :
    (extractIntent q).targetFilter ≠ some "CA" ∧
    (testExclUT q = false → testExclWA q = false → testExclDotUT q = false →
      testExclDotWA q = false →
      (extractIntent q).targetFilter = some "exclude_CA") := by
  have key : ∃ s : String, (firstPass q).targetFilter = some s ∧
      isExcludeFilter (some s) = true ∧ s ≠ "CA" ∧
      (testExclUT q = false → testExclWA q = false → testExclDotUT q = false →
        testExclDotWA q = false → s = "exclude_CA") := by
    rw [firstPass_targetFilter q]
    split_ifs with hdw hdu hdc hw hu hc
    · exact ⟨_, rfl, by decide, by decide, by intro hU hW hDU hDW; simp_all⟩
    · exact ⟨_, rfl, by decide, by decide, by intro hU hW hDU hDW; simp_all⟩
    · exact ⟨_, rfl, by decide, by decide, by intro hU hW hDU hDW; simp_all⟩
    · exact ⟨_, rfl, by decide, by decide, by intro hU hW hDU hDW; simp_all⟩
    · exact ⟨_, rfl, by decide, by decide, by intro hU hW hDU hDW; simp_all⟩
    · exact ⟨_, rfl, by decide, by decide, by intro hU hW hDU hDW; simp_all⟩
    · rcases hCA with h | h
      · exact absurd h hc
      · exact absurd h hdc
  obtain ⟨s, hs, hstart, hsne, hsca⟩ := key
  have hex : isExcludeFilter (firstPass q).targetFilter = true := by
    rw [hs]; exact hstart
  have hext : extractIntent q = firstPass q := by
    simp [extractIntent, hex]
  constructor
  · rw [hext, hs]
    intro hcon
    exact hsne (Option.some.inj hcon)
  · intro hU hW hDU hDW
    rw [hext, hs, hsca hU hW hDU hDW]

/-- Witness for the amended claim C4 at the concrete text
`"excluding california"`. -/
theorem c4_exclusion_dominates_witness :
    (extractIntent "excluding california".data).targetFilter =
      some "exclude_CA" ∧
    (extractIntent "excluding california".data).targetFilter ≠ some "CA" :=
  ⟨(c4_exclusion_dominates _ (Or.inl (by decide))).2 (by decide) (by decide)
      (by decide) (by decide),
   (c4_exclusion_dominates _ (Or.inl (by decide))).1⟩

/-- Claim C5.  A similarity of exactly 0.5 is not below
`SIMILARITY_THRESHOLD`, so `handleQuery` takes the confident-match
branch: the threshold is an inclusive lower bound. -/
theorem c5_threshold_boundary_inclusive (query : String)
    (analyses : List Analysis)
    (h : (findBestMatchKeyword query analyses).2 = 1 / 2) :
    handleQueryBranch query analyses =
      .confidentMatch (findBestMatchKeyword query analyses).1 (1 / 2) := by
  rw [handleQueryBranch]
  rw [h]
  norm_num [SIMILARITY_THRESHOLD]

/-- Witness for claim C5: the query
`"exclude california turnout weighted"` against the exclude-CA record
scores exactly 15, i.e. similarity 1/2, and is treated as confident. -/
theorem c5_threshold_boundary_inclusive_witness :
    (findBestMatchKeyword "exclude california turnout weighted"
        [excludeCARecord]).2 = 1 / 2 ∧
    handleQueryBranch "exclude california turnout weighted"
        [excludeCARecord] =
      .confidentMatch (findBestMatchKeyword
        "exclude california turnout weighted" [excludeCARecord]).1 (1 / 2) := by
  have hraw : findBestMatchRaw "exclude california turnout weighted"
      [excludeCARecord] = (some excludeCARecord, 15) := rfl
  have h : (findBestMatchKeyword "exclude california turnout weighted"
      [excludeCARecord]).2 = 1 / 2 := by
    rw [findBestMatchKeyword, hraw]
    norm_num
  exact ⟨h, c5_threshold_boundary_inclusive _ _ h⟩


/-- Claim C6, counterexample.  The text `"quadratic basic"` matches both
the quadratic and the basic specification patterns, and the interpreter
keeps `"basic"` — the value of the LATER-listed pattern — not the
earlier-listed `"quadratic"` asserted by the claim. -/
theorem c6_counterexample :
    testQuad ("quadratic basic".data.map Char.toLower) = true ∧
    testBasic ("quadratic basic".data.map Char.toLower) = true ∧
    (firstPass ("quadratic basic".data.map Char.toLower)).targetSpec =
      "basic" ∧
    "basic" ≠ "quadratic" :=
  ⟨rfl, rfl, rfl, by decide⟩

/-- Claim C6, amended.  In one pass over the ordered rule list the
filter, time-window, weighted and specification dimensions take the value
of the LAST matching rule of that dimension, while only the outcome keeps
the value of the FIRST matching rule. -/
theorem c6_last_match_wins (q : List Char) :
    (firstPass q).targetSpec =
      (if testBasic q then "basic"
       else if testQuad q then "quadratic"
       else if testLinear q then "linear"
       else "basic") ∧
    (firstPass q).targetOutcome =
      (if testTurn q then some "turnout"
       else if testPres q then some "dem_share_pres"
       else if testGov q then some "dem_share_gov"
       else if testSen q then some "dem_share_sen"
       else if testDemShare q then some "dem_share"
       else none) ∧
    (firstPass q).targetFilter =
      (if testExclDotWA q then some "exclude_WA"
       else if testExclDotUT q then some "exclude_UT"
       else if testExclDotCA q then some "exclude_CA"
       else if testExclWA q then some "exclude_WA"
       else if testExclUT q then some "exclude_UT"
       else if testExclCA q then some "exclude_CA"
       else none) ∧
    (firstPass q).targetTime =
      (if testTimeNo2024 q then some (1996, 2022)
       else if testTimePost q then some (2018, 2024)
       else if testTimeOrig q then some (1996, 2018)
       else none) ∧
    (firstPass q).targetWeighted = testWeight q :=
  ⟨firstPass_targetSpec q, firstPass_targetOutcome q, firstPass_targetFilter q,
   firstPass_targetTime q, firstPass_targetWeighted q⟩

/-- Claim C7.  The comparison baseline is `getBaseline`, which for every
vote-share-family outcome is the fixed pooled `dem_share` lookup at
quadratic trends, full sample and full window, and for turnout the
analogous turnout lookup; any record it returns carries exactly those
dimensions.  The lookup takes no query argument, so it cannot vary with
the user query. -/
theorem c7_fixed_baseline (analyses : List Analysis) (outcome : String)
    (h : outcome = "dem_share" ∨ outcome = "dem_share_pres" ∨
      outcome = "dem_share_gov" ∨ outcome = "dem_share_sen") :
    getBaseline analyses outcome =
      findAnalysis analyses "dem_share" "quadratic" none none ∧
    getBaseline analyses "turnout" =
      findAnalysis analyses "turnout" "quadratic" none none ∧
    ∀ r, getBaseline analyses outcome = some r →
      r.outcome = "dem_share" ∧ r.specification = "quadratic" ∧
      r.state_filter = none ∧ r.time_window = none ∧ r.weighted = false ∧
      r.cluster = "county" := by
  have h1 : getBaseline analyses outcome =
      findAnalysis analyses "dem_share" "quadratic" none none := by
    rcases h with h | h | h | h <;> subst h <;> rfl
  refine ⟨h1, rfl, ?_⟩
  intro r hr
  rw [h1] at hr
  have hp := List.find?_some hr
  simp only [findAnalysis] at hp
  simp only [Bool.and_eq_true, beq_iff_eq, Bool.not_eq_true'] at hp
  exact ⟨hp.1.1.1.1.1, hp.1.1.1.1.2, hp.1.1.1.2, hp.1.1.2, hp.1.2, hp.2⟩

/-- Witness for claim C7 at outcome `"dem_share_pres"` over a
one-record corpus. -/
theorem c7_fixed_baseline_witness :
    getBaseline [baselineQuadRecord] "dem_share_pres" =
      findAnalysis [baselineQuadRecord] "dem_share" "quadratic" none none ∧
    getBaseline [baselineQuadRecord] "turnout" =
      findAnalysis [baselineQuadRecord] "turnout" "quadratic" none none :=
  ⟨(c7_fixed_baseline [baselineQuadRecord] "dem_share_pres"
      (Or.inr (Or.inl rfl))).1,
   (c7_fixed_baseline [baselineQuadRecord] "dem_share_pres"
      (Or.inr (Or.inl rfl))).2.1⟩

/-- Claim C8.  `formatCell` renders the missing glyph for absent or
unsuccessful records, else the coefficient to 3 decimals with stars
appended and the standard error in parentheses; the star thresholds are
`***` below 0.01, `**` on [0.01, 0.05), `*` on [0.05, 0.1), none at or
above 0.1 — so p = 0.004 gets three stars, 0.04 two, 0.08 one, 0.5
none. -/
theorem c8_formatting (a : Analysis) (hs : a.success = true) :
    formatCell none = Cell.missing ∧
    (∀ b : Analysis, b.success = false → formatCell (some b) = Cell.missing) ∧
    (∀ b : Analysis, b.p_value < 1 / 100 →
      getSignificanceStars (some b) = "***") ∧
    (∀ b : Analysis, 1 / 100 ≤ b.p_value → b.p_value < 1 / 20 →
      getSignificanceStars (some b) = "**") ∧
    (∀ b : Analysis, 1 / 20 ≤ b.p_value → b.p_value < 1 / 10 →
      getSignificanceStars (some b) = "*") ∧
    (∀ b : Analysis, 1 / 10 ≤ b.p_value → getSignificanceStars (some b) = "") ∧
    (a.p_value = 1 / 250 → formatCell (some a) =
      Cell.cell (toFixed 3 a.coefficient ++ "***") "***" "significant"
        ("(" ++ toFixed 3 a.std_error ++ ")")) ∧
    (a.p_value = 1 / 25 → formatCell (some a) =
      Cell.cell (toFixed 3 a.coefficient ++ "**") "**" "significant"
        ("(" ++ toFixed 3 a.std_error ++ ")")) ∧
    (a.p_value = 2 / 25 → formatCell (some a) =
      Cell.cell (toFixed 3 a.coefficient ++ "*") "*" ""
        ("(" ++ toFixed 3 a.std_error ++ ")")) ∧
    (a.p_value = 1 / 2 → formatCell (some a) =
      Cell.cell (toFixed 3 a.coefficient ++ "") "" ""
        ("(" ++ toFixed 3 a.std_error ++ ")")) := by
  refine ⟨rfl, ?_, ?_, ?_, ?_, ?_, ?_, ?_, ?_, ?_⟩
  · intro b hb
    simp [formatCell, hb]
  · intro b hb
    simp only [getSignificanceStars]
    rw [if_pos hb]
  · intro b hb1 hb2
    simp only [getSignificanceStars]
    rw [if_neg (not_lt.mpr hb1), if_pos hb2]
  · intro b hb1 hb2
    simp only [getSignificanceStars]
    rw [if_neg (not_lt.mpr (le_trans (by norm_num) hb1)),
      if_neg (not_lt.mpr hb1), if_pos hb2]
  · intro b hb
    simp only [getSignificanceStars]
    rw [if_neg (not_lt.mpr (le_trans (by norm_num) hb)),
      if_neg (not_lt.mpr (le_trans (by norm_num) hb)), if_neg (not_lt.mpr hb)]
  · intro hp
    norm_num [formatCell, hs, hp]
  · intro hp
    norm_num [formatCell, hs, hp]
  · intro hp
    norm_num [formatCell, hs, hp]
  · intro hp
    norm_num [formatCell, hs, hp]

/-- Witness for claim C8: concrete records with p = 0.004 (three stars)
and p = 0.12 (no stars). -/
theorem c8_formatting_witness :
    formatCell (some pooledBasicRecord) =
      Cell.cell (toFixed 3 pooledBasicRecord.coefficient ++ "***") "***"
        "significant" ("(" ++ toFixed 3 pooledBasicRecord.std_error ++ ")") ∧
    getSignificanceStars (some fullMatchRecord) = "" :=
  ⟨(c8_formatting pooledBasicRecord rfl).2.2.2.2.2.2.1 rfl,
   (c8_formatting pooledBasicRecord rfl).2.2.2.2.2.1 fullMatchRecord
      (by norm_num [fullMatchRecord])⟩

/-- Claim C9.  With the baseline record absent from the corpus,
`updateCoefPlot` still renders: exactly one row is drawn, labelled with
the matched record's coefficient, and the scale denominator
`maxVal - minVal` is at least 1/50, so the rendering never divides by
zero or fails. -/
theorem c9_plot_without_baseline (r : Analysis) (lbl : String) :
    (updateCoefPlot none r lbl).showCurrent = true ∧
    (updateCoefPlot none r lbl).rows.length = 1 ∧
    (∀ row ∈ (updateCoefPlot none r lbl).rows,
      row.valueLabel = toFixed 4 r.coefficient ++ getSignificanceStars (some r)) ∧
    (updateCoefPlot none r lbl).maxVal - (updateCoefPlot none r lbl).minVal ≥
      1 / 50 := by
  have hmax : (updateCoefPlot none r lbl).maxVal =
      max 0 (ciUpperOf r) + 1 / 100 := by
    simp [updateCoefPlot, renderCoefPlot]
  have hmin : (updateCoefPlot none r lbl).minVal =
      min 0 (ciLowerOf r) - 1 / 100 := by
    simp [updateCoefPlot, renderCoefPlot]
  refine ⟨rfl, rfl, ?_, ?_⟩
  · intro row hrow
    simp only [updateCoefPlot, renderCoefPlot, List.filterMap,
      Option.isSome_some, List.nil_append, if_true, List.mem_singleton] at hrow
    subst hrow
    rfl
  · rw [hmax, hmin]
    have h1 : (0 : ℚ) ≤ max 0 (ciUpperOf r) := le_max_left _ _
    have h2 : min 0 (ciLowerOf r) ≤ 0 := min_le_left _ _
    linarith

/-- The scoring loop never moves off its initial `(null, 0)` state when
every record's outcome is irrelevant. -/
theorem foldl_matchStep_irrelevant (it : Intent) (analyses : List Analysis)
    (h : ∀ a ∈ analyses, relevantOutcomes.contains a.outcome = false) :
    analyses.foldl (matchStep it) (none, 0) = (none, 0) := by
  induction analyses with
  | nil => rfl
  | cons a t ih =>
    have ha : relevantOutcomes.contains a.outcome = false :=
      h a (List.mem_cons_self a t)
    have hstep : matchStep it (none, 0) a = (none, 0) := by
      unfold matchStep
      rw [ha]
      simp
    rw [List.foldl_cons, hstep]
    exact ih fun b hb => h b (List.mem_cons_of_mem a hb)

/-- Claim C10.  Over a corpus with no relevant-outcome record the
matcher returns a null analysis with similarity exactly 0, `handleQuery`
takes the fallback path, and the fallback prompt renders `None found`
for the null record. -/
theorem c10_no_relevant_records (query : String) (analyses : List Analysis)
    (h : ∀ a ∈ analyses, relevantOutcomes.contains a.outcome = false) :
    findBestMatchKeyword query analyses = (none, 0) ∧
    handleQueryBranch query analyses = .noGoodMatch none 0 ∧
    noMatchDescription (findBestMatchKeyword query analyses).1 =
      "None found" := by
  have hraw : findBestMatchRaw query analyses = (none, 0) :=
    foldl_matchStep_irrelevant _ _ h
  have hk : findBestMatchKeyword query analyses = (none, 0) := by
    rw [findBestMatchKeyword, hraw]
    norm_num
  refine ⟨hk, ?_, by rw [hk]; rfl⟩
  simp only [handleQueryBranch, hk]
  norm_num [SIMILARITY_THRESHOLD]

/-- Witness for claim C10 at the empty corpus. -/
theorem c10_no_relevant_records_witness :
    findBestMatchKeyword "What is the effect of vote by mail?" [] =
      (none, 0) ∧
    handleQueryBranch "What is the effect of vote by mail?" [] =
      .noGoodMatch none 0 :=
  ⟨(c10_no_relevant_records _ _ (by simp)).1,
   (c10_no_relevant_records _ _ (by simp)).2.1⟩

end VBM
